import Mathlib

/-!
Verification of the Gaming-advisor image-batch pipeline and retrieval engine.

The batch state machine, retry use case and retrieval engine are described by
the repository documentation (src/APIv2/README.md); the front-end helpers
fetchWithAuth and pollBatchStatus are TypeScript source.  Each definition
below embeds the corresponding program fragment; definitions whose Python
source file is absent from the repository snapshot are modelled from the
specification and marked as such in their doc comments.
-/

namespace GamingAdvisor

/-- Batch lifecycle states, from the BatchStatus enum
(src/APIv2/README.md, lines 678-685). -/
inductive BatchStatus
  | pending
  | processing
  | completed
  | failed
  | retrying
  | partially_completed
  deriving DecidableEq, Repr

/-- Per-image processing states, from the ImageProcessingStatus enum
(src/APIv2/README.md, lines 97-103). -/
inductive ImageProcessingStatus
  | uploaded
  | processing
  | completed
  | failed
  | retrying
  deriving DecidableEq, Repr

/-- The ImageBatch aggregate, from the ImageBatch dataclass
(src/APIv2/README.md, lines 638-674).  UUIDs and datetimes are embedded as
naturals; counters are naturals since they start at 0 and are only
incremented or reset to 0. -/
structure ImageBatch where
  id : Nat
  game_id : Nat
  total_images : Nat
  processed_images : Nat := 0
  failed_images : Nat := 0
  status : BatchStatus
  retry_count : Nat := 0
  max_retries : Nat
  created_at : Nat := 0
  processing_started_at : Option Nat := none
  completed_at : Option Nat := none
  deriving DecidableEq, Repr

/-- completion_percentage, from the ImageBatch dataclass
(src/APIv2/README.md, lines 658-660): the guarded form
`(processed / total) * 100 if total > 0 else 0.0`, with exact rational
arithmetic in place of Python floats. -/
def ImageBatch.completion_percentage (b : ImageBatch) : ℚ :=
  if 0 < b.total_images then
    ((b.processed_images : ℚ) / (b.total_images : ℚ)) * 100
  else 0

/-- Modelled from the spec: failure_percentage is reported by the batch
status endpoint but its Python body is not in the snapshot; the spec defines
it as `failed / total * 100`, 0 when `total == 0`, symmetric to
completion_percentage. -/
def ImageBatch.failure_percentage (b : ImageBatch) : ℚ :=
  if 0 < b.total_images then
    ((b.failed_images : ℚ) / (b.total_images : ℚ)) * 100
  else 0

/-- can_retry, from the ImageBatch dataclass (src/APIv2/README.md,
lines 666-667): `retry_count < max_retries and failed_images > 0`. -/
def ImageBatch.can_retry (b : ImageBatch) : Bool :=
  decide (b.retry_count < b.max_retries) && decide (0 < b.failed_images)

/-- mark_image_processed, from the ImageBatch dataclass
(src/APIv2/README.md, lines 669-670): `processed_images += 1`. -/
def ImageBatch.mark_image_processed (b : ImageBatch) : ImageBatch :=
  { b with processed_images := b.processed_images + 1 }

/-- mark_image_failed, from the ImageBatch dataclass
(src/APIv2/README.md, lines 672-673): `failed_images += 1`. -/
def ImageBatch.mark_image_failed (b : ImageBatch) : ImageBatch :=
  { b with failed_images := b.failed_images + 1 }

/-- One atomic counter mutation on the batch aggregate: a worker reports a
job as processed or as failed. -/
inductive MarkOp
  | processed
  | failed
  deriving DecidableEq, Repr

/-- Apply one counter mutation to the batch. -/
def applyMark (b : ImageBatch) : MarkOp → ImageBatch
  | .processed => b.mark_image_processed
  | .failed => b.mark_image_failed

/-- Apply a sequence of counter mutations, in order. -/
def applyMarks (b : ImageBatch) (ops : List MarkOp) : ImageBatch :=
  ops.foldl applyMark b

/-- A freshly created batch: counters zero, status pending
(src/APIv2/README.md, line 679 and the batch-upload response, line 296). -/
def newBatch (i g total maxR : Nat) : ImageBatch :=
  { id := i, game_id := g, total_images := total, status := .pending,
    max_retries := maxR }

/-- A per-image job, from the enhanced GameImage entity
(src/APIv2/README.md, lines 1008-1015): batch reference, per-image
processing status, last error, retry counter. -/
structure GameImage where
  id : Nat
  batch_id : Option Nat := none
  processing_status : ImageProcessingStatus
  processing_error : Option String := none
  retry_count : Nat := 0
  deriving DecidableEq, Repr

/-- A job is resolved when it is neither uploaded, processing nor retrying
(src/APIv2/README.md, lines 97-103). -/
def GameImage.isResolved (img : GameImage) : Bool :=
  match img.processing_status with
  | .completed => true
  | .failed => true
  | _ => false

/-- Modelled from the spec: the batch-finalization rule of the
process_image_batch use case (its Python file is not in the snapshot).
When every job has resolved: `failed == 0` gives completed, else
`processed == 0` gives failed, else partially_completed. -/
def resolve_batch_status (b : ImageBatch) : BatchStatus :=
  if b.failed_images = 0 then .completed
  else if b.processed_images = 0 then .failed
  else .partially_completed

/-- Modelled from the spec: the worker applies the terminal status to the
batch once every one of its jobs has resolved; otherwise the batch is left
as is. -/
def finalize_batch (b : ImageBatch) (jobs : List GameImage) : ImageBatch :=
  if jobs.all GameImage.isResolved then
    { b with status := resolve_batch_status b }
  else b

/-- A batch aggregate together with its jobs, the state touched by the
retry endpoint. -/
structure BatchState where
  batch : ImageBatch
  jobs : List GameImage
  deriving DecidableEq, Repr

/-- Modelled from the spec: the retry_failed_images use case behind
POST /images/batches/.../retry (its Python file is not in the snapshot).
Accepted only when can_retry holds; on acceptance failed jobs are reset to
pending, the failed counter is zeroed, retry_count is incremented and the
status becomes retrying; otherwise a precondition error is returned and the
state is left untouched. -/
def retry_failed_images (s : BatchState) : BatchState × Except String Unit :=
  if s.batch.can_retry then
    ({ batch :=
        { s.batch with
          failed_images := 0,
          retry_count := s.batch.retry_count + 1,
          status := .retrying },
       jobs := s.jobs.map fun img =>
        if img.processing_status = .failed then
          { img with processing_status := .uploaded }
        else img },
     Except.ok ())
  else (s, Except.error "PreconditionError: retry requested while canRetry is false")

/-- A knowledge vector, from the GameVector dataclass
(src/APIv2/README.md, lines 130-148): three optional (content, embedding)
facet pairs, a page hint, owning game and image.  Embedding coordinates are
embedded as rationals. -/
structure GameVector where
  id : Nat
  game_id : Nat
  image_id : Nat
  ocr_content : Option String := none
  ocr_embedding : Option (List ℚ) := none
  description_content : Option String := none
  description_embedding : Option (List ℚ) := none
  labels_content : Option String := none
  labels_embedding : Option (List ℚ) := none
  page_number : Option Nat := none
  deriving DecidableEq, Repr

/-- The facet driving similarity, from the vector_search_method
configuration (src/APIv2/README.md, lines 219 and 244). -/
inductive Facet
  | ocr
  | description
  | labels
  deriving DecidableEq, Repr

/-- The embedding stored for the selected facet. -/
def GameVector.facetEmbedding (v : GameVector) : Facet → Option (List ℚ)
  | .ocr => v.ocr_embedding
  | .description => v.description_embedding
  | .labels => v.labels_embedding

/-- The content stored for the selected facet. -/
def GameVector.facetContent (v : GameVector) : Facet → Option String
  | .ocr => v.ocr_content
  | .description => v.description_content
  | .labels => v.labels_content

/-- The page/position hint used to break similarity ties; a missing page
number sorts first. -/
def GameVector.pageHint (v : GameVector) : Nat :=
  v.page_number.getD 0

/-- Result order of the retrieval engine: strictly greater similarity
first, ties broken by ascending page hint. -/
def resultOrder (sim : GameVector → ℚ) (a b : GameVector) : Prop :=
  sim b < sim a ∨ (sim a = sim b ∧ a.pageHint ≤ b.pageHint)

instance instDecidableResultOrder (sim : GameVector → ℚ) :
    DecidableRel (resultOrder sim) := fun a b => by
  unfold resultOrder
  exact inferInstance

/-- Modelled from the spec: the VectorSearchService behind the retrieval
engine (its Python file is not in the snapshot).  Candidates are the stored
vectors of the queried game whose selected facet is non-null; the cosine
similarity of each candidate against the question embedding is abstracted
as the oracle `sim` (the Vector Store interface returns
(vectorId, similarity) pairs); candidates below the threshold are
discarded, the rest are ordered by descending similarity with ties broken
by ascending page hint, and at most `top_k` are kept. -/
def vector_search (store : List GameVector) (sim : GameVector → ℚ)
    (game_id : Nat) (facet : Facet) (top_k : Nat) (threshold : ℚ) :
    List GameVector :=
  (((store.filter fun v =>
      decide (v.game_id = game_id) && (v.facetEmbedding facet).isSome).filter
        fun v => decide (threshold ≤ sim v)).insertionSort
    (resultOrder sim)).take top_k

/-- Message roles, from the MessageRole enum
(src/APIv2/README.md, line 170). -/
inductive MessageRole
  | user
  | assistant
  deriving DecidableEq, Repr

/-- A cited source backing an answer: vector id, similarity score, facet
used (spec, Message/Source data model). -/
structure MessageSource where
  vector_id : Nat
  similarity_score : ℚ
  facet : Facet
  deriving DecidableEq, Repr

/-- A chat message, from the ChatMessage dataclass
(src/APIv2/README.md, lines 166-174). -/
structure ChatMessage where
  role : MessageRole
  content : String
  sources : List MessageSource
  search_method : Option String := none
  deriving DecidableEq, Repr

/-- The name of the configured facet, as recorded in search_method. -/
def facetName : Facet → String
  | .ocr => "ocr"
  | .description => "description"
  | .labels => "labels"

/-- The domain-refusal answer required by the agent system prompt
(src/APIv2/README.md, lines 256-262): the agent must never answer about
game rules when no data was provided. -/
def refusal_answer : String :=
  "I can only answer from the provided rulebook data, and no relevant data was retrieved for this game."

/-- Modelled from the spec: the Generation Capability under the fixed
domain-scoping system prompt.  When the engine flags empty context the
prompt instructs refusal, so the modelled call returns the refusal answer;
generation over non-empty context is the oracle `gen`. -/
def generate_answer (gen : String → String → String)
    (empty_context : Bool) (context question : String) : String :=
  if empty_context then refusal_answer else gen context question

/-- Modelled from the spec: context assembly concatenates the configured
content facets of each surviving candidate. -/
def assemble_context (results : List GameVector) (fields : List Facet) :
    String :=
  String.intercalate " "
    (results.map fun v =>
      String.intercalate " " (fields.filterMap v.facetContent))

/-- The observable outcome of one question: the empty-context flag passed
to generation and the recorded assistant message. -/
structure AgentOutcome where
  empty_context : Bool
  message : ChatMessage
  deriving DecidableEq, Repr

/-- Modelled from the spec: the SendMessageUseCase of the GameRulesAgent
(its Python file is not in the snapshot): retrieve, flag empty context,
assemble context, invoke generation, and record the assistant message with
its sources and retrieval-method tag.  A domain refusal is a normal,
successful outcome, so the engine returns ok. -/
def send_message (store : List GameVector) (sim : GameVector → ℚ)
    (game_id : Nat) (facet : Facet) (top_k : Nat) (threshold : ℚ)
    (fields : List Facet) (gen : String → String → String)
    (question : String) : Except String AgentOutcome :=
  let results := vector_search store sim game_id facet top_k threshold
  let ec := results.isEmpty
  Except.ok
    { empty_context := ec,
      message :=
        { role := .assistant,
          content := generate_answer gen ec (assemble_context results fields) question,
          sources := results.map fun v =>
            { vector_id := v.id, similarity_score := sim v, facet := facet },
          search_method := some (facetName facet) } }

/-- A small concrete vector store used to instantiate the retrieval
theorems. -/
def exStore : List GameVector :=
  [{ id := 7, game_id := 1, image_id := 3, ocr_content := some "roll two dice",
     ocr_embedding := some [1, 0], page_number := some 4 },
   { id := 8, game_id := 2, image_id := 5, ocr_content := some "move a pawn",
     ocr_embedding := some [0, 1], page_number := some 1 }]

/-- A concrete similarity oracle used to instantiate the retrieval
theorems. -/
def exSim : GameVector → ℚ := fun v => 1 / ((v.id : ℚ) + 1)

/-- An HTTP response as the front-end observes it: a status code and a
body. -/
structure HttpResponse where
  status : Nat
  body : String := ""
  deriving DecidableEq, Repr

/-- The value returned by fetchWithAuth, plus the Authorization bearer
tokens of the HTTP requests it issued, in order. -/
structure FetchAuthResult where
  response : HttpResponse
  refreshed : Bool
  requests : List String
  deriving DecidableEq, Repr

/-- fetchWithAuth, from src/front-end/src/utils/api.ts lines 45-78 (the
copy under src/front-end/gaming-advisor is identical): issue the request
with the stored access token; on a 401, call the token-refresh endpoint
(embedded as its result, `refresh_result`: some new token, or none when no
refresh token exists or the refresh call fails); when a new token is
obtained, set refreshed and retry once with the new token, otherwise return
the first response.  The network is the oracle `net`, indexed by the order
in which requests are issued. -/
def fetchWithAuth (access_token : String) (net : Nat → HttpResponse)
    (refresh_result : Option String) : FetchAuthResult :=
  let response := net 0
  if response.status = 401 then
    match refresh_result with
    | some new_token =>
      { response := net 1, refreshed := true,
        requests := [access_token, new_token] }
    | none =>
      { response := response, refreshed := false, requests := [access_token] }
  else
    { response := response, refreshed := false, requests := [access_token] }

/-- A concrete network: the first request gets a 401, any retry gets a
200. -/
def exNet : Nat → HttpResponse :=
  fun n => if n = 0 then { status := 401 } else { status := 200, body := "ok" }

/-- What one 5-second poll tick of pollBatchStatus observes: a successful
status response with its parsed status string and completion percentage, a
non-ok response, or a thrown request error
(src/unnamed/part_003, lines 167-192). -/
inductive PollEvent
  | ok (status : String) (completion_percentage : ℚ)
  | httpError
  | requestFailed
  deriving DecidableEq, Repr

/-- Whether one poll tick clears the interval, from pollBatchStatus
(src/unnamed/part_003, lines 173-190): on an ok response the interval is
cleared exactly when the reported status is completed or failed; a non-ok
response or a thrown error always clears it. -/
def pollTickStops : PollEvent → Bool
  | .ok s _ => decide (s = "completed") || decide (s = "failed")
  | .httpError => true
  | .requestFailed => true

/-- Whether the polling interval is still active after `n` ticks drawn from
the event stream `events`. -/
def pollActive (events : Nat → PollEvent) : Nat → Bool
  | 0 => true
  | n + 1 => pollActive events n && !pollTickStops (events n)

/-- A status stream that forever reports partially_completed. -/
def exPollStream : Nat → PollEvent :=
  fun _ => PollEvent.ok "partially_completed" 50

end GamingAdvisor

namespace GamingAdvisor

/-- Counter mutations add exactly the number of operations to
`processed_images + failed_images` and leave `total_images` unchanged. -/
theorem applyMarks_counter_sum (b : ImageBatch) (ops : List MarkOp) :
    (applyMarks b ops).processed_images + (applyMarks b ops).failed_images
        = b.processed_images + b.failed_images + ops.length
      ∧ (applyMarks b ops).total_images = b.total_images := by
  induction ops generalizing b with
  | nil => simp [applyMarks]
  | cons op ops ih =>
    have h := ih (applyMark b op)
    cases op <;>
      simpa [applyMarks, applyMark, ImageBatch.mark_image_processed,
        ImageBatch.mark_image_failed, List.foldl_cons, Nat.add_assoc,
        Nat.add_comm, Nat.add_left_comm] using h

/-- Claim C1: for every batch, can_retry returns true iff
`retry_count < max_retries` and `failed_images > 0`, and returns false for
any batch state violating either conjunct. -/
theorem can_retry_iff (b : ImageBatch) :
    (b.can_retry = true ↔ (b.retry_count < b.max_retries ∧ 0 < b.failed_images))
      ∧ ((b.max_retries ≤ b.retry_count ∨ b.failed_images = 0) →
          b.can_retry = false) := by
  constructor
  · simp [ImageBatch.can_retry]
  · intro h
    simp only [ImageBatch.can_retry, Bool.and_eq_false_iff, decide_eq_false_iff_not]
    rcases h with h | h
    · exact Or.inl (by omega)
    · exact Or.inr (by omega)

/-- Witness for C1: the spec scenario batch (30 images, 3 failed,
retry_count 0, max_retries 3) may retry; zeroing its failures forbids it. -/
theorem can_retry_iff_witness :
    (newBatch 1 1 30 3).mark_image_failed.can_retry = true
      ∧ (newBatch 1 1 30 3).can_retry = false := by
  constructor
  · exact ((can_retry_iff (newBatch 1 1 30 3).mark_image_failed).1).2
      (by constructor <;> decide)
  · exact (can_retry_iff (newBatch 1 1 30 3)).2 (Or.inr (by decide))

/-- Claim C2: completion_percentage is `processed / total * 100` and
failure_percentage is `failed / total * 100` whenever `total > 0`, and both
are 0 (with no division error) when `total = 0`. -/
theorem percentages_spec (b : ImageBatch) :
    (0 < b.total_images →
        b.completion_percentage
            = (b.processed_images : ℚ) / (b.total_images : ℚ) * 100
          ∧ b.failure_percentage
            = (b.failed_images : ℚ) / (b.total_images : ℚ) * 100)
      ∧ (b.total_images = 0 →
          b.completion_percentage = 0 ∧ b.failure_percentage = 0) := by
  constructor
  · intro h
    simp [ImageBatch.completion_percentage, ImageBatch.failure_percentage, h]
  · intro h
    simp [ImageBatch.completion_percentage, ImageBatch.failure_percentage, h]

/-- Witness for C2: the spec scenario (30 images, 27 processed, 3 failed)
yields completion 90 and failure 10; the degenerate 0-image batch yields 0
and 0. -/
theorem percentages_spec_witness :
    ({ newBatch 1 1 30 3 with
        processed_images := 27, failed_images := 3 : ImageBatch }.completion_percentage = 90
      ∧ { newBatch 1 1 30 3 with
          processed_images := 27, failed_images := 3 : ImageBatch }.failure_percentage = 10)
      ∧ ((newBatch 2 1 0 3).completion_percentage = 0
        ∧ (newBatch 2 1 0 3).failure_percentage = 0) := by
  constructor
  · have h := (percentages_spec
      { newBatch 1 1 30 3 with processed_images := 27, failed_images := 3 }).1
      (by decide)
    refine ⟨h.1.trans (by norm_num [newBatch]), h.2.trans (by norm_num [newBatch])⟩
  · exact (percentages_spec (newBatch 2 1 0 3)).2 rfl

/-- Claim C3: starting from a freshly created batch, after any prefix of a
lifecycle trace of counter mutations (one mutation per resolved job, hence
at most `total` of them) the invariant
`0 ≤ processed + failed ≤ total` holds. -/
theorem batch_counter_invariant (i g total maxR : Nat) (ops pre : List MarkOp)
    (hops : ops.length ≤ total) (hpre : pre <+: ops) :
    0 ≤ (applyMarks (newBatch i g total maxR) pre).processed_images
          + (applyMarks (newBatch i g total maxR) pre).failed_images
      ∧ (applyMarks (newBatch i g total maxR) pre).processed_images
          + (applyMarks (newBatch i g total maxR) pre).failed_images
        ≤ (applyMarks (newBatch i g total maxR) pre).total_images := by
  have h := applyMarks_counter_sum (newBatch i g total maxR) pre
  have hlen : pre.length ≤ ops.length := hpre.length_le
  refine ⟨Nat.zero_le _, ?_⟩
  rw [h.1, h.2]
  simp only [newBatch]
  omega

/-- Witness for C3: a 2-image batch after its first job resolves. -/
theorem batch_counter_invariant_witness :
    0 ≤ (applyMarks (newBatch 1 1 2 3) [MarkOp.processed]).processed_images
          + (applyMarks (newBatch 1 1 2 3) [MarkOp.processed]).failed_images
      ∧ (applyMarks (newBatch 1 1 2 3) [MarkOp.processed]).processed_images
          + (applyMarks (newBatch 1 1 2 3) [MarkOp.processed]).failed_images
        ≤ (applyMarks (newBatch 1 1 2 3) [MarkOp.processed]).total_images :=
  batch_counter_invariant 1 1 2 3 [MarkOp.processed, MarkOp.failed]
    [MarkOp.processed] (by decide) ⟨[MarkOp.failed], rfl⟩

/-- Each trace of atomic mutations adds to `processed_images` exactly the
number of processed-marks it contains. -/
theorem applyMarks_processed_count (b : ImageBatch) (ops : List MarkOp) :
    (applyMarks b ops).processed_images
      = b.processed_images + ops.countP (fun o => decide (o = MarkOp.processed)) := by
  induction ops generalizing b with
  | nil => simp [applyMarks]
  | cons op ops ih =>
    have h := ih (applyMark b op)
    cases op <;>
      simp only [applyMarks, List.foldl_cons, applyMark,
        ImageBatch.mark_image_processed, ImageBatch.mark_image_failed,
        List.countP_cons] at h ⊢ <;>
      simp [h] <;> omega

/-- Each trace of atomic mutations adds to `failed_images` exactly the
number of failed-marks it contains. -/
theorem applyMarks_failed_count (b : ImageBatch) (ops : List MarkOp) :
    (applyMarks b ops).failed_images
      = b.failed_images + ops.countP (fun o => decide (o = MarkOp.failed)) := by
  induction ops generalizing b with
  | nil => simp [applyMarks]
  | cons op ops ih =>
    have h := ih (applyMark b op)
    cases op <;>
      simp only [applyMarks, List.foldl_cons, applyMark,
        ImageBatch.mark_image_processed, ImageBatch.mark_image_failed,
        List.countP_cons] at h ⊢ <;>
      simp [h] <;> omega

/-- Claim C8: with every counter increment modelled as one atomic operation,
any schedule of concurrent workers (any permutation of the workers' combined
mark sequences covers every interleaving) leaves the counters reflecting
exactly the multiset of resolved jobs: no update is lost, regardless of
completion order. -/
theorem batch_counters_exact_under_interleaving (b : ImageBatch)
    (workers : List (List MarkOp)) (sched : List MarkOp)
    (h : sched.Perm workers.flatten) :
    (applyMarks b sched).processed_images
        = b.processed_images
          + workers.flatten.countP (fun o => decide (o = MarkOp.processed))
      ∧ (applyMarks b sched).failed_images
        = b.failed_images
          + workers.flatten.countP (fun o => decide (o = MarkOp.failed)) := by
  constructor
  · rw [applyMarks_processed_count, h.countP_eq]
  · rw [applyMarks_failed_count, h.countP_eq]

/-- Witness for C8: two workers, three resolved jobs, a schedule that
interleaves them out of submission order. -/
theorem batch_counters_exact_under_interleaving_witness :
    (applyMarks (newBatch 1 1 3 3)
        [MarkOp.failed, MarkOp.processed, MarkOp.processed]).processed_images
      = (newBatch 1 1 3 3).processed_images
        + ([[MarkOp.processed], [MarkOp.failed, MarkOp.processed]].flatten.countP
            (fun o => decide (o = MarkOp.processed))) :=
  (batch_counters_exact_under_interleaving (newBatch 1 1 3 3)
    [[MarkOp.processed], [MarkOp.failed, MarkOp.processed]]
    [MarkOp.failed, MarkOp.processed, MarkOp.processed] (by decide)).1

/-- Claim C4: once every job of the batch has resolved (none remains
uploaded, processing or retrying), the batch status is exactly completed
when `failed = 0`, exactly failed when `failed > 0` and `processed = 0`,
and exactly partially_completed when both counters are positive. -/
theorem finalize_batch_status_cases (b : ImageBatch) (jobs : List GameImage)
    (hres : ∀ img ∈ jobs,
      img.processing_status = ImageProcessingStatus.completed
        ∨ img.processing_status = ImageProcessingStatus.failed) :
    (b.failed_images = 0 →
        (finalize_batch b jobs).status = BatchStatus.completed)
      ∧ (0 < b.failed_images → b.processed_images = 0 →
          (finalize_batch b jobs).status = BatchStatus.failed)
      ∧ (0 < b.failed_images → 0 < b.processed_images →
          (finalize_batch b jobs).status = BatchStatus.partially_completed) := by
  have hall : jobs.all GameImage.isResolved = true := by
    rw [List.all_eq_true]
    intro img hmem
    rcases hres img hmem with h | h <;>
      simp [GameImage.isResolved, h]
  refine ⟨?_, ?_, ?_⟩
  · intro h0
    simp [finalize_batch, hall, resolve_batch_status, h0]
  · intro hf hp
    simp [finalize_batch, hall, resolve_batch_status, Nat.pos_iff_ne_zero.mp hf, hp]
  · intro hf hp
    simp [finalize_batch, hall, resolve_batch_status, Nat.pos_iff_ne_zero.mp hf,
      Nat.pos_iff_ne_zero.mp hp]

/-- Witness for C4: the spec scenario batch (27 processed, 3 failed, all 30
jobs resolved) finalizes to partially_completed. -/
theorem finalize_batch_status_cases_witness :
    (finalize_batch
        { newBatch 1 1 30 3 with processed_images := 27, failed_images := 3 }
        [{ id := 1, processing_status := ImageProcessingStatus.completed },
         { id := 2, processing_status := ImageProcessingStatus.failed }]).status
      = BatchStatus.partially_completed :=
  ((finalize_batch_status_cases
      { newBatch 1 1 30 3 with processed_images := 27, failed_images := 3 }
      [{ id := 1, processing_status := ImageProcessingStatus.completed },
       { id := 2, processing_status := ImageProcessingStatus.failed }]
      (by intro img hmem; fin_cases hmem <;> simp)).2.2
    (by decide) (by decide))

/-- Claim C5: when can_retry is false the retry request returns a
precondition error and mutates nothing: the batch record, its counters, its
status, its retry bookkeeping and every job processing status are
unchanged. -/
theorem retry_rejected_no_mutation (s : BatchState)
    (h : s.batch.can_retry = false) :
    (retry_failed_images s).2
        = Except.error "PreconditionError: retry requested while canRetry is false"
      ∧ (retry_failed_images s).1 = s
      ∧ (retry_failed_images s).1.batch.total_images = s.batch.total_images
      ∧ (retry_failed_images s).1.batch.processed_images = s.batch.processed_images
      ∧ (retry_failed_images s).1.batch.failed_images = s.batch.failed_images
      ∧ (retry_failed_images s).1.batch.retry_count = s.batch.retry_count
      ∧ (retry_failed_images s).1.batch.status = s.batch.status
      ∧ (retry_failed_images s).1.jobs.map GameImage.processing_status
        = s.jobs.map GameImage.processing_status := by
  have hrun : retry_failed_images s
      = (s, Except.error "PreconditionError: retry requested while canRetry is false") := by
    simp [retry_failed_images, h]
  rw [hrun]
  exact ⟨rfl, rfl, rfl, rfl, rfl, rfl, rfl, rfl⟩

/-- Witness for C5: a batch with no failed images; its retry request is
rejected and the state survives unchanged. -/
theorem retry_rejected_no_mutation_witness :
    (retry_failed_images
        { batch := { newBatch 1 1 30 3 with processed_images := 30 },
          jobs := [{ id := 1, processing_status := ImageProcessingStatus.completed }] }).2
      = Except.error "PreconditionError: retry requested while canRetry is false"
      ∧ (retry_failed_images
          { batch := { newBatch 1 1 30 3 with processed_images := 30 },
            jobs := [{ id := 1, processing_status := ImageProcessingStatus.completed }] }).1
        = { batch := { newBatch 1 1 30 3 with processed_images := 30 },
            jobs := [{ id := 1, processing_status := ImageProcessingStatus.completed }] } := by
  have h := retry_rejected_no_mutation
    { batch := { newBatch 1 1 30 3 with processed_images := 30 },
      jobs := [{ id := 1, processing_status := ImageProcessingStatus.completed }] }
    (by decide)
  exact ⟨h.1, h.2.1⟩

/-- The retrieval result order is total. -/
theorem resultOrder_total (sim : GameVector → ℚ) (a b : GameVector) :
    resultOrder sim a b ∨ resultOrder sim b a := by
  rcases lt_trichotomy (sim a) (sim b) with h | h | h
  · exact Or.inr (Or.inl h)
  · rcases Nat.le_total a.pageHint b.pageHint with hp | hp
    · exact Or.inl (Or.inr ⟨h, hp⟩)
    · exact Or.inr (Or.inr ⟨h.symm, hp⟩)
  · exact Or.inl (Or.inl h)

/-- The retrieval result order is transitive. -/
theorem resultOrder_trans (sim : GameVector → ℚ) (a b c : GameVector) :
    resultOrder sim a b → resultOrder sim b c → resultOrder sim a c := by
  rintro (hab | ⟨hab, hpab⟩) (hbc | ⟨hbc, hpbc⟩)
  · exact Or.inl (hbc.trans hab)
  · exact Or.inl (hbc ▸ hab)
  · exact Or.inl (hab.symm ▸ hbc)
  · exact Or.inr ⟨hab.trans hbc, hpab.trans hpbc⟩

/-- Claim C6: every retrieval result belongs to the queried game and to a
vector whose selected facet is present, has similarity at least the
threshold, the result list has length at most `top_k`, and it is ordered by
non-increasing similarity with ties broken by ascending page hint. -/
theorem vector_search_spec (store : List GameVector) (sim : GameVector → ℚ)
    (gid : Nat) (facet : Facet) (k : Nat) (t : ℚ) :
    (∀ v ∈ vector_search store sim gid facet k t,
        v.game_id = gid ∧ t ≤ sim v ∧ (v.facetEmbedding facet).isSome = true)
      ∧ (vector_search store sim gid facet k t).length ≤ k
      ∧ List.Sorted (resultOrder sim) (vector_search store sim gid facet k t)
      ∧ List.Sorted (fun a b => sim b ≤ sim a)
          (vector_search store sim gid facet k t) := by
  haveI : IsTotal GameVector (resultOrder sim) := ⟨resultOrder_total sim⟩
  haveI : IsTrans GameVector (resultOrder sim) := ⟨resultOrder_trans sim⟩
  have hsorted : List.Sorted (resultOrder sim)
      (vector_search store sim gid facet k t) := by
    unfold vector_search
    exact (List.sorted_insertionSort (resultOrder sim) _).sublist
      (List.take_sublist _ _)
  refine ⟨?_, ?_, hsorted, ?_⟩
  · intro v hv
    unfold vector_search at hv
    have hv1 := List.mem_of_mem_take hv
    rw [List.mem_insertionSort] at hv1
    have hv2 := List.mem_filter.mp hv1
    have hv3 := List.mem_filter.mp hv2.1
    have hgame := hv3.2
    have hthr := hv2.2
    simp only [Bool.and_eq_true, decide_eq_true_eq] at hgame hthr
    exact ⟨hgame.1, hthr, hgame.2⟩
  · unfold vector_search
    exact List.length_take_le _ _
  · exact hsorted.imp fun {a b} hab => by
      rcases hab with h | ⟨h, _⟩
      · exact le_of_lt h
      · exact le_of_eq h.symm

/-- Witness for C6: the concrete store queried for game 1 with k = 2 yields
a result list bounded by 2, all for game 1 and above threshold. -/
theorem vector_search_spec_witness :
    (vector_search exStore exSim 1 Facet.ocr 2 (1/16)).length ≤ 2
      ∧ List.Sorted (fun a b => exSim b ≤ exSim a)
          (vector_search exStore exSim 1 Facet.ocr 2 (1/16)) :=
  ⟨(vector_search_spec exStore exSim 1 Facet.ocr 2 (1/16)).2.1,
   (vector_search_spec exStore exSim 1 Facet.ocr 2 (1/16)).2.2.2⟩

/-- Claim C7: when retrieval discards every candidate, the engine still
completes successfully: generation is invoked with the empty-context flag
set, the recorded answer is the domain refusal, and the recorded source
list is empty. -/
theorem empty_retrieval_refusal (store : List GameVector)
    (sim : GameVector → ℚ) (gid : Nat) (facet : Facet) (k : Nat) (t : ℚ)
    (fields : List Facet) (gen : String → String → String) (question : String)
    (h : vector_search store sim gid facet k t = []) :
    send_message store sim gid facet k t fields gen question
      = Except.ok
          { empty_context := true,
            message :=
              { role := MessageRole.assistant,
                content := refusal_answer,
                sources := [],
                search_method := some (facetName facet) } } := by
  simp [send_message, h, generate_answer]

/-- Witness for C7: an empty store retrieves nothing, and the engine
records the refusal with no sources. -/
theorem empty_retrieval_refusal_witness :
    send_message [] exSim 1 Facet.ocr 3 (1/2) [Facet.ocr]
        (fun c q => String.intercalate " " [c, q]) "how many dice"
      = Except.ok
          { empty_context := true,
            message :=
              { role := MessageRole.assistant,
                content := refusal_answer,
                sources := [],
                search_method := some (facetName Facet.ocr) } } :=
  empty_retrieval_refusal [] exSim 1 Facet.ocr 3 (1/2) [Facet.ocr]
    (fun c q => String.intercalate " " [c, q]) "how many dice" rfl

/-- Claim C9: fetchWithAuth issues at most two requests; it retries exactly
once with the new token and returns the second response with refreshed set
iff the first response is a 401 and the refresh yields a token; otherwise
it returns the first response with refreshed unset; a 401 on the retried
request is returned as is, with no further refresh. -/
theorem fetchWithAuth_spec (tok : String) (net : Nat → HttpResponse)
    (refresh_result : Option String) :
    (fetchWithAuth tok net refresh_result).requests.length ≤ 2
      ∧ ((fetchWithAuth tok net refresh_result).refreshed = true
          ↔ ((net 0).status = 401 ∧ refresh_result.isSome = true))
      ∧ (∀ newTok, (net 0).status = 401 → refresh_result = some newTok →
          fetchWithAuth tok net refresh_result
            = { response := net 1, refreshed := true,
                requests := [tok, newTok] })
      ∧ ((net 0).status ≠ 401 →
          fetchWithAuth tok net refresh_result
            = { response := net 0, refreshed := false, requests := [tok] })
      ∧ (refresh_result = none →
          fetchWithAuth tok net refresh_result
            = { response := net 0, refreshed := false, requests := [tok] }) := by
  by_cases h : (net 0).status = 401
  · cases refresh_result with
    | none =>
      refine ⟨?_, ?_, ?_, ?_, ?_⟩ <;>
        simp [fetchWithAuth, h]
    | some tk =>
      refine ⟨?_, ?_, ?_, ?_, ?_⟩ <;>
        simp [fetchWithAuth, h]
  · cases refresh_result with
    | none =>
      refine ⟨?_, ?_, ?_, ?_, ?_⟩ <;>
        simp [fetchWithAuth, h]
    | some tk =>
      refine ⟨?_, ?_, ?_, ?_, ?_⟩ <;>
        simp [fetchWithAuth, h]

/-- Witness for C9: a 401 followed by a successful refresh returns the
second response, refreshed, after exactly two requests. -/
theorem fetchWithAuth_spec_witness :
    fetchWithAuth "tokA" exNet (some "tokB")
      = { response := exNet 1, refreshed := true,
          requests := ["tokA", "tokB"] } :=
  (fetchWithAuth_spec "tokA" exNet (some "tokB")).2.2.1 "tokB" rfl rfl

/-- The polling interval of pollBatchStatus has been cleared within the
first `n` ticks exactly when some earlier tick observed a stopping event. -/
theorem pollActive_false_iff (events : Nat → PollEvent) (n : Nat) :
    pollActive events n = false
      ↔ ∃ i < n, pollTickStops (events i) = true := by
  induction n with
  | zero => simp [pollActive]
  | succ n ih =>
    rw [pollActive, Bool.and_eq_false_iff]
    constructor
    · intro h
      rcases h with h1 | h1
      · obtain ⟨i, hi, hs⟩ := ih.mp h1
        exact ⟨i, Nat.lt_succ_of_lt hi, hs⟩
      · refine ⟨n, Nat.lt_succ_self n, ?_⟩
        cases hq : pollTickStops (events n)
        · rw [hq] at h1
          exact absurd h1 (by decide)
        · rfl
    · rintro ⟨i, hi, hs⟩
      rcases Nat.lt_succ_iff_lt_or_eq.mp hi with hlt | heq
      · exact Or.inl (ih.mpr ⟨i, hlt, hs⟩)
      · subst heq
        exact Or.inr (by simp [hs])

/-- Claim C10: a poll tick stops the interval iff the reported status is
exactly completed or failed, or the status request fails (non-ok response
or thrown error); under any other reported status, in particular a stream
forever reporting partially_completed, polling never terminates. -/
theorem pollBatchStatus_spec (events : Nat → PollEvent) :
    (∀ s p, pollTickStops (PollEvent.ok s p) = true
        ↔ (s = "completed" ∨ s = "failed"))
      ∧ pollTickStops PollEvent.httpError = true
      ∧ pollTickStops PollEvent.requestFailed = true
      ∧ (∀ n, pollActive events n = false
          ↔ ∃ i < n, pollTickStops (events i) = true)
      ∧ (∀ p n, (∀ i, events i = PollEvent.ok "partially_completed" p) →
          pollActive events n = true) := by
  refine ⟨?_, rfl, rfl, fun n => pollActive_false_iff events n, ?_⟩
  · intro s p
    simp [pollTickStops]
  · intro p n hev
    cases hpa : pollActive events n
    · obtain ⟨i, _, hs⟩ := (pollActive_false_iff events n).mp hpa
      rw [hev i] at hs
      exact absurd hs (by simp [pollTickStops])
    · rfl

/-- Witness for C10: after three ticks of a stream forever reporting
partially_completed, the interval is still active. -/
theorem pollBatchStatus_spec_witness :
    pollActive exPollStream 3 = true :=
  (pollBatchStatus_spec exPollStream).2.2.2.2 50 3 (fun _ => rfl)

end GamingAdvisor
